import Mathlib

/-!
Verification of the components-v2 layout-node core
(`discord/components_v2.py`, wire schema declarations in
`discord/types/components.py`).

The development shallowly embeds the Python code: each component class
becomes a constructor of the `Obj` inductive, each validating
`__init__` becomes an `Except`-valued function (`Section.init`,
`Container.init`, ...) performing the same checks in the same order
with the same exception kind and message, and each `to_dict` becomes a
clause of `toDict`, building an ordered association-list JSON object
with the same keys inserted in the same order and under the same
conditions. Two names the module evaluates are unbound (`ActionRow` at
line 216 and `dataclass` at line 322, neither ever imported); the
embedding renders the NameError each of them raises.
-/

/-- A JSON value. Objects are ordered association lists, mirroring the
insertion-ordered Python `dict` that `to_dict` builds. -/
inductive Json where
  | null
  | bool (b : Bool)
  | num (n : Int)
  | str (s : String)
  | arr (elems : List Json)
  | obj (fields : List (String × Json))

/-- The universe of runtime values a caller can pass where a component is
expected. Each constructor mirrors one Python class of the repository.
`ActionRow` and `Button` are collaborator-owned kinds (defined in
`discord/components.py`, outside this core); they are modelled as opaque
nodes carrying the JSON payload their own collaborator-owned `to_dict`
would produce. Field names and order follow the Python `__slots__`. -/
inductive Obj where
  | ActionRow (payload : Json)
  | Button (payload : Json)
  | Section (components : List Obj) (accessory : Option Obj) (id : Option Int)
  | TextDisplay (content : String) (id : Option Int)
  | Container (components : List Obj) (accent_color : Option Int) (spoiler : Bool) (id : Option Int)
  | Thumbnail (media_url : String) (description : Option String) (spoiler : Bool) (id : Option Int)
  | MediaGalleryItem (media_url : String) (description : Option String) (spoiler : Bool)
  | MediaGallery (items : List Obj) (id : Option Int)
  | File (filename : String) (spoiler : Bool) (id : Option Int)
  | Separator (divider : Bool) (spacing : Int) (id : Option Int)

/-- A raised Python exception. `valueError` and `typeError` carry the
message passed to `raise` in `components_v2.py`; `nameError` is raised
by the interpreter on evaluating an unbound name and carries that
name. -/
inductive PyError where
  | valueError (msg : String)
  | typeError (msg : String)
  | nameError (name : String)
deriving DecidableEq

/-- Mirrors `SeparatorSpacing.SMALL = 1`. -/
def SeparatorSpacing.SMALL : Int := 1

/-- Mirrors `SeparatorSpacing.LARGE = 2`. -/
def SeparatorSpacing.LARGE : Int := 2

/-- Mirrors `isinstance(x, TextDisplay)`. -/
def isTextDisplay : Obj → Bool
  | .TextDisplay _ _ => true
  | _ => false

/-- Mirrors `isinstance(x, Button)`. -/
def isButton : Obj → Bool
  | .Button _ => true
  | _ => false

/-- Mirrors `isinstance(x, Thumbnail)`. -/
def isThumbnail : Obj → Bool
  | .Thumbnail _ _ _ _ => true
  | _ => false

/-- Mirrors `isinstance(x, MediaGalleryItem)`. -/
def isMediaGalleryItem : Obj → Bool
  | .MediaGalleryItem _ _ _ => true
  | _ => false

/-- Mirrors the accessory check of `Section.__init__`:
`accessory is None or isinstance(accessory, (Button, Thumbnail))`. -/
def accessoryOk : Option Obj → Bool
  | none => true
  | some a => isButton a || isThumbnail a

/-- Mirrors `Section.__init__` (components_v2.py lines 82-100): the four
checks in source order, raising the same exceptions with the same
messages, then storing the fields unchanged. -/
def Section.init (components : List Obj) (accessory : Option Obj) (id : Option Int) :
    Except PyError Obj :=
  if components.isEmpty then
    .error (.valueError "Section must contain at least one text component")
  else if components.length > 3 then
    .error (.valueError "Section can only contain up to 3 text components")
  else if ¬ components.all isTextDisplay then
    .error (.typeError "All components must be TextDisplay instances")
  else if ¬ accessoryOk accessory then
    .error (.typeError "Accessory must be either a Button or Thumbnail instance")
  else
    .ok (.Section components accessory id)

/-- Mirrors `TextDisplay.__init__`: no validation, fields stored unchanged. -/
def TextDisplay.init (content : String) (id : Option Int) : Except PyError Obj :=
  .ok (.TextDisplay content id)

/-- Mirrors `Container.__init__` (components_v2.py lines 205-226)
including its fault: after the empty check of line 213, line 216
evaluates the tuple of whitelist classes, and its first name
`ActionRow` is unbound in the module (line 28 imports only `Component`
and `Button` from `.components`), so every non-empty components list
raises `NameError`. The whitelist TypeError of line 218, the accent
color range ValueError of line 221 and the success path are unreachable
dead code; the remaining three parameters are accepted but never
used. -/
def Container.init (components : List Obj) (_accent_color : Option Int)
    (_spoiler : Bool) (_id : Option Int) : Except PyError Obj :=
  if components.isEmpty then
    .error (.valueError "Container must contain at least one component")
  else
    .error (.nameError "ActionRow")

/-- Mirrors `Thumbnail.__init__`: no validation, fields stored unchanged. -/
def Thumbnail.init (media_url : String) (description : Option String)
    (spoiler : Bool) (id : Option Int) : Except PyError Obj :=
  .ok (.Thumbnail media_url description spoiler id)

/-- Mirrors constructing a `MediaGalleryItem`: the dataclass decoration
at components_v2.py line 322 evaluates the unbound name `dataclass`
(never imported in the module), so creating the class raises
`NameError` and the generated constructor never exists; any attempted
construction therefore fails with that NameError, whatever the
arguments. -/
def MediaGalleryItem.init (_media_url : String) (_description : Option String)
    (_spoiler : Bool) : Except PyError Obj :=
  .error (.nameError "dataclass")

/-- Mirrors `MediaGallery.__init__` (components_v2.py lines 382-396): the
three checks in source order. -/
def MediaGallery.init (items : List Obj) (id : Option Int) : Except PyError Obj :=
  if items.isEmpty then
    .error (.valueError "MediaGallery must contain at least one item")
  else if items.length > 10 then
    .error (.valueError "MediaGallery can only contain up to 10 items")
  else if ¬ items.all isMediaGalleryItem then
    .error (.typeError "All items must be MediaGalleryItem instances")
  else
    .ok (.MediaGallery items id)

/-- Mirrors `File.__init__`: no validation, fields stored unchanged. -/
def File.init (filename : String) (spoiler : Bool) (id : Option Int) :
    Except PyError Obj :=
  .ok (.File filename spoiler id)

/-- Mirrors `Separator.__init__` (components_v2.py lines 523-535): the
spacing membership check, then storing the fields unchanged. -/
def Separator.init (divider : Bool) (spacing : Int) (id : Option Int) :
    Except PyError Obj :=
  if ¬ (spacing = SeparatorSpacing.SMALL ∨ spacing = SeparatorSpacing.LARGE) then
    .error (.valueError "spacing must be either SeparatorSpacing.SMALL or SeparatorSpacing.LARGE")
  else
    .ok (.Separator divider spacing id)

/-- Mirrors `if self.id is not None: the id key`. -/
def optId : Option Int → List (String × Json)
  | none => []
  | some i => [("id", Json.num i)]

/-- Mirrors `if self.description is not None: the description key`. -/
def optDescription : Option String → List (String × Json)
  | none => []
  | some d => [("description", Json.str d)]

/-- Mirrors `if self.spoiler: the spoiler key`. -/
def optSpoiler : Bool → List (String × Json)
  | false => []
  | true => [("spoiler", Json.bool true)]

mutual

/-- Mirrors the `to_dict` method of each class in `components_v2.py`:
keys are inserted in source order and under the same conditions. The
integer type tags (9, 10, 11, 12, 13, 14, 17) are the `Literal` type
discriminants declared for these kinds in `discord/types/components.py`
(the `ComponentType` enum itself is defined outside this core). For the
collaborator-owned `ActionRow` and `Button` kinds, serialization yields
their collaborator-produced payload. -/
def toDict : Obj → Json
  | .ActionRow p => p
  | .Button p => p
  | .Section components accessory id =>
      .obj ([("type", Json.num 9),
             ("components", Json.arr (toDictList components))]
            ++ toDictAccessory accessory
            ++ optId id)
  | .TextDisplay content id =>
      .obj ([("type", Json.num 10),
             ("content", Json.str content)]
            ++ optId id)
  | .Container components accent_color spoiler id =>
      .obj ([("type", Json.num 17),
             ("components", Json.arr (toDictList components))]
            ++ (match accent_color with
                | none => []
                | some c => [("accent_color", Json.num c)])
            ++ optSpoiler spoiler
            ++ optId id)
  | .Thumbnail media_url description spoiler id =>
      .obj ([("type", Json.num 11),
             ("media", Json.obj [("url", Json.str media_url)])]
            ++ optDescription description
            ++ optSpoiler spoiler
            ++ optId id)
  | .MediaGalleryItem media_url description spoiler =>
      .obj ([("media", Json.obj [("url", Json.str media_url)])]
            ++ optDescription description
            ++ optSpoiler spoiler)
  | .MediaGallery items id =>
      .obj ([("type", Json.num 12),
             ("items", Json.arr (toDictList items))]
            ++ optId id)
  | .File filename spoiler id =>
      .obj ([("type", Json.num 13),
             ("file", Json.obj [("url", Json.str ("attachment://" ++ filename))])]
            ++ optSpoiler spoiler
            ++ optId id)
  | .Separator divider spacing id =>
      .obj ([("type", Json.num 14)]
            ++ (match divider with
                | true => []
                | false => [("divider", Json.bool false)])
            ++ (if spacing = SeparatorSpacing.SMALL then []
                else [("spacing", Json.num spacing)])
            ++ optId id)

/-- Mirrors `[component.to_dict() for component in self.components]`. -/
def toDictList : List Obj → List Json
  | [] => []
  | o :: os => toDict o :: toDictList os

/-- Mirrors `if self.accessory is not None: the accessory key`. -/
def toDictAccessory : Option Obj → List (String × Json)
  | none => []
  | some a => [("accessory", toDict a)]

end

/-- First-match lookup in an ordered field list (Python `dict` access). -/
def lookupFields : List (String × Json) → String → Option Json
  | [], _ => none
  | (k, v) :: rest, key => if key = k then some v else lookupFields rest key

/-- The value stored under a key of a JSON object, if any. -/
def Json.lookup : Json → String → Option Json
  | .obj fields, key => lookupFields fields key
  | _, _ => none

/-- The keys of a JSON object, in insertion order. -/
def Json.keys : Json → List String
  | .obj fields => fields.map Prod.fst
  | _ => []

/-- Structural conformance of a JSON object to a discriminated-union
schema entry: the `type` key holds the given integer tag, every required
key is present, and every present key is either required or optional. -/
def conformsTo (j : Json) (tag : Int) (required optionalKeys : List String) : Bool :=
  (match j.lookup "type" with
   | some (Json.num n) => n = tag
   | _ => false)
  && required.all (fun k => (j.lookup k).isSome)
  && j.keys.all (fun k => required.contains k || optionalKeys.contains k)

/-- The keys the `ThumbnailComponent` TypedDict of
`discord/types/components.py` (lines 134-138) declares as required:
none of its keys is marked `NotRequired`. -/
def ThumbnailComponent.requiredKeys : List String :=
  ["type", "url", "height", "width"]

/-- The `ThumbnailComponent` TypedDict declares no optional keys. -/
def ThumbnailComponent.optionalKeys : List String := []

/-- Modelled from the spec: the required keys of the section 6 wire shape
for each type tag (9 Section, 10 TextDisplay, 11 Thumbnail,
12 MediaGallery, 13 File, 14 Separator, 17 Container). -/
def specRequiredKeys : Int → List String
  | 9 => ["type", "components"]
  | 10 => ["type", "content"]
  | 11 => ["type", "media"]
  | 12 => ["type", "items"]
  | 13 => ["type", "file"]
  | 14 => ["type"]
  | 17 => ["type", "components"]
  | _ => []

/-- Modelled from the spec: the optional keys of the section 6 wire shape
for each type tag. -/
def specOptionalKeys : Int → List String
  | 9 => ["accessory", "id"]
  | 10 => ["id"]
  | 11 => ["description", "spoiler", "id"]
  | 12 => ["id"]
  | 13 => ["spoiler", "id"]
  | 14 => ["divider", "spacing", "id"]
  | 17 => ["accent_color", "spoiler", "id"]
  | _ => []

/-- True when the result of a constructor is a raised `TypeError`. -/
def isTypeError : Except PyError Obj → Bool
  | .error (.typeError _) => true
  | _ => false

mutual

/-- The serializer of each class, translated into an exception monad: the
channel where a `raise` inside `to_dict` would surface. No clause of the
Python source raises, so no clause here produces an error. -/
def toDictE : Obj → Except PyError Json
  | .ActionRow p => .ok p
  | .Button p => .ok p
  | .Section components accessory id =>
      match toDictListE components, toDictAccessoryE accessory with
      | .ok js, .ok accFields =>
          .ok (.obj ([("type", Json.num 9), ("components", Json.arr js)]
                ++ accFields ++ optId id))
      | .error e, _ => .error e
      | _, .error e => .error e
  | .TextDisplay content id =>
      .ok (.obj ([("type", Json.num 10), ("content", Json.str content)] ++ optId id))
  | .Container components accent_color spoiler id =>
      match toDictListE components with
      | .ok js =>
          .ok (.obj ([("type", Json.num 17), ("components", Json.arr js)]
                ++ (match accent_color with
                    | none => []
                    | some c => [("accent_color", Json.num c)])
                ++ optSpoiler spoiler
                ++ optId id))
      | .error e => .error e
  | .Thumbnail media_url description spoiler id =>
      .ok (.obj ([("type", Json.num 11),
                  ("media", Json.obj [("url", Json.str media_url)])]
            ++ optDescription description ++ optSpoiler spoiler ++ optId id))
  | .MediaGalleryItem media_url description spoiler =>
      .ok (.obj ([("media", Json.obj [("url", Json.str media_url)])]
            ++ optDescription description ++ optSpoiler spoiler))
  | .MediaGallery items id =>
      match toDictListE items with
      | .ok js => .ok (.obj ([("type", Json.num 12), ("items", Json.arr js)] ++ optId id))
      | .error e => .error e
  | .File filename spoiler id =>
      .ok (.obj ([("type", Json.num 13),
                  ("file", Json.obj [("url", Json.str ("attachment://" ++ filename))])]
            ++ optSpoiler spoiler ++ optId id))
  | .Separator divider spacing id =>
      .ok (.obj ([("type", Json.num 14)]
            ++ (match divider with
                | true => []
                | false => [("divider", Json.bool false)])
            ++ (if spacing = SeparatorSpacing.SMALL then []
                else [("spacing", Json.num spacing)])
            ++ optId id))

/-- Elementwise serialization of children in the exception monad. -/
def toDictListE : List Obj → Except PyError (List Json)
  | [] => .ok []
  | o :: os =>
      match toDictE o, toDictListE os with
      | .ok j, .ok js => .ok (j :: js)
      | .error e, _ => .error e
      | _, .error e => .error e

/-- Accessory serialization in the exception monad. -/
def toDictAccessoryE : Option Obj → Except PyError (List (String × Json))
  | none => .ok []
  | some a =>
      match toDictE a with
      | .ok j => .ok [("accessory", j)]
      | .error e => .error e

end

/-- Elementwise serialization of a child list is `List.map toDict`. -/
theorem toDictList_eq (os : List Obj) : toDictList os = os.map toDict := by
  induction os with
  | nil => rfl
  | cons o os ih => simp [toDictList, ih]

/-- C1 (code evaluated at the failing input): in the end-to-end example
the TextDisplay and Section constructions succeed, but the Container
construction raises NameError on the unbound name ActionRow
(components_v2.py line 216) instead of succeeding, so the example
cannot execute; the serializer applied to the node the example intends
does yield exactly the claimed JSON
`{"type":17,"components":[{"type":9,"components":[{"type":10,"content":"hi"}]}],"accent_color":5793266}`. -/
theorem c1_container_construction_raises_nameerror :
    TextDisplay.init "hi" none = Except.ok (Obj.TextDisplay "hi" none)
    ∧ Section.init [Obj.TextDisplay "hi" none] none none =
        Except.ok (Obj.Section [Obj.TextDisplay "hi" none] none none)
    ∧ Container.init [Obj.Section [Obj.TextDisplay "hi" none] none none]
        (some 0x5865F2) false none = Except.error (PyError.nameError "ActionRow")
    ∧ toDict (Obj.Container [Obj.Section [Obj.TextDisplay "hi" none] none none]
        (some 0x5865F2) false none) =
      Json.obj [("type", Json.num 17),
        ("components", Json.arr [Json.obj [("type", Json.num 9),
          ("components", Json.arr [Json.obj [("type", Json.num 10),
            ("content", Json.str "hi")]])]]),
        ("accent_color", Json.num 5793266)] :=
  ⟨rfl, rfl, rfl, rfl⟩

/-- C10 (code evaluated at the failing inputs): the TextDisplay,
Thumbnail and File constructors perform no validation and store every
field unchanged, but constructing a MediaGalleryItem is impossible: the
dataclass decoration at line 322 evaluates the unbound name dataclass,
so class creation raises NameError and the generated constructor the
claim describes never exists, whatever the arguments. -/
theorem c10_mediagalleryitem_constructor_never_generated :
    (∀ (content : String) (id : Option Int),
        TextDisplay.init content id = Except.ok (Obj.TextDisplay content id))
    ∧ (∀ (media_url : String) (description : Option String) (spoiler : Bool) (id : Option Int),
        Thumbnail.init media_url description spoiler id =
          Except.ok (Obj.Thumbnail media_url description spoiler id))
    ∧ (∀ (filename : String) (spoiler : Bool) (id : Option Int),
        File.init filename spoiler id = Except.ok (Obj.File filename spoiler id))
    ∧ (∀ (media_url : String) (description : Option String) (spoiler : Bool),
        MediaGalleryItem.init media_url description spoiler =
          Except.error (PyError.nameError "dataclass")) :=
  ⟨fun _ _ => rfl, fun _ _ _ _ => rfl, fun _ _ _ => rfl, fun _ _ _ => rfl⟩

/-- C8: media references are serialized as fixed nested sub-objects: every
Thumbnail and every MediaGalleryItem maps the media key to the object
with the url field holding the stored media_url, and every File maps the
file key to the object whose url is the string "attachment://" followed
by the stored filename. -/
theorem c8_media_nested_objects :
    (∀ (u : String) (d : Option String) (sp : Bool) (i : Option Int),
        (toDict (Obj.Thumbnail u d sp i)).lookup "media" =
          some (Json.obj [("url", Json.str u)]))
    ∧ (∀ (u : String) (d : Option String) (sp : Bool),
        (toDict (Obj.MediaGalleryItem u d sp)).lookup "media" =
          some (Json.obj [("url", Json.str u)]))
    ∧ (∀ (f : String) (sp : Bool) (i : Option Int),
        (toDict (Obj.File f sp i)).lookup "file" =
          some (Json.obj [("url", Json.str ("attachment://" ++ f))])) :=
  ⟨fun _ _ _ _ => rfl, fun _ _ _ => rfl, fun _ _ _ => rfl⟩

/-- C9: composite serialization maps the stored child sequence elementwise
and in order into the array under the key components (Section,
Container) or items (MediaGallery). -/
theorem c9_children_serialized_in_order :
    (∀ (cs : List Obj) (a : Option Obj) (i : Option Int),
        (toDict (Obj.Section cs a i)).lookup "components" =
          some (Json.arr (cs.map toDict)))
    ∧ (∀ (cs : List Obj) (col : Option Int) (sp : Bool) (i : Option Int),
        (toDict (Obj.Container cs col sp i)).lookup "components" =
          some (Json.arr (cs.map toDict)))
    ∧ (∀ (its : List Obj) (i : Option Int),
        (toDict (Obj.MediaGallery its i)).lookup "items" =
          some (Json.arr (its.map toDict))) := by
  refine ⟨fun cs a i => ?_, fun cs col sp i => ?_, fun its i => ?_⟩ <;>
    simp [toDict, Json.lookup, lookupFields, toDictList_eq]

/-- C2: for every node of every kind and every optional field of that
kind, the serialized output omits the field key exactly when the field
value equals its documented default (divider omitted iff true, spacing
omitted iff SMALL, spoiler omitted iff false, id, accent_color,
description and accessory omitted iff absent), and a present key holds
exactly the stored value. -/
theorem c2_default_omission :
    (∀ (c : String) (i : Option Int),
        (toDict (Obj.TextDisplay c i)).lookup "id" = i.map Json.num)
    ∧ (∀ (cs : List Obj) (a : Option Obj) (i : Option Int),
        (toDict (Obj.Section cs a i)).lookup "accessory" = a.map toDict
        ∧ (toDict (Obj.Section cs a i)).lookup "id" = i.map Json.num)
    ∧ (∀ (cs : List Obj) (col : Option Int) (sp : Bool) (i : Option Int),
        (toDict (Obj.Container cs col sp i)).lookup "accent_color" = col.map Json.num
        ∧ (toDict (Obj.Container cs col sp i)).lookup "spoiler" =
            (if sp then some (Json.bool true) else none)
        ∧ (toDict (Obj.Container cs col sp i)).lookup "id" = i.map Json.num)
    ∧ (∀ (u : String) (d : Option String) (sp : Bool) (i : Option Int),
        (toDict (Obj.Thumbnail u d sp i)).lookup "description" = d.map Json.str
        ∧ (toDict (Obj.Thumbnail u d sp i)).lookup "spoiler" =
            (if sp then some (Json.bool true) else none)
        ∧ (toDict (Obj.Thumbnail u d sp i)).lookup "id" = i.map Json.num)
    ∧ (∀ (u : String) (d : Option String) (sp : Bool),
        (toDict (Obj.MediaGalleryItem u d sp)).lookup "description" = d.map Json.str
        ∧ (toDict (Obj.MediaGalleryItem u d sp)).lookup "spoiler" =
            (if sp then some (Json.bool true) else none))
    ∧ (∀ (its : List Obj) (i : Option Int),
        (toDict (Obj.MediaGallery its i)).lookup "id" = i.map Json.num)
    ∧ (∀ (f : String) (sp : Bool) (i : Option Int),
        (toDict (Obj.File f sp i)).lookup "spoiler" =
            (if sp then some (Json.bool true) else none)
        ∧ (toDict (Obj.File f sp i)).lookup "id" = i.map Json.num)
    ∧ (∀ (dv : Bool) (s : Int) (i : Option Int),
        (toDict (Obj.Separator dv s i)).lookup "divider" =
            (if dv then none else some (Json.bool false))
        ∧ (toDict (Obj.Separator dv s i)).lookup "spacing" =
            (if s = SeparatorSpacing.SMALL then none else some (Json.num s))
        ∧ (toDict (Obj.Separator dv s i)).lookup "id" = i.map Json.num) := by
  refine ⟨fun c i => by cases i <;> rfl,
    fun cs a i => ⟨by cases a <;> cases i <;> rfl, by cases a <;> cases i <;> rfl⟩,
    fun cs col sp i => ⟨by cases col <;> cases sp <;> cases i <;> rfl,
      by cases col <;> cases sp <;> cases i <;> rfl,
      by cases col <;> cases sp <;> cases i <;> rfl⟩,
    fun u d sp i => ⟨by cases d <;> cases sp <;> cases i <;> rfl,
      by cases d <;> cases sp <;> cases i <;> rfl,
      by cases d <;> cases sp <;> cases i <;> rfl⟩,
    fun u d sp => ⟨by cases d <;> cases sp <;> rfl, by cases d <;> cases sp <;> rfl⟩,
    fun its i => by cases i <;> rfl,
    fun f sp i => ⟨by cases sp <;> cases i <;> rfl, by cases sp <;> cases i <;> rfl⟩,
    fun dv s i => ⟨?_, ?_, ?_⟩⟩ <;>
  · by_cases hs : s = SeparatorSpacing.SMALL <;> cases dv <;> cases i <;>
      simp [toDict, Json.lookup, lookupFields, optId, hs]

/-- C3 counterexample: serializing a Thumbnail produces an object whose
key set is {type, media} (plus optional keys), which does not conform to
the `ThumbnailComponent` schema declared in
`discord/types/components.py`: the required keys url, height and width
are missing and the key media is outside the declared key set. -/
theorem c3_thumbnail_violates_declared_schema :
    conformsTo (toDict (Obj.Thumbnail "u" none false none)) 11
      ThumbnailComponent.requiredKeys ThumbnailComponent.optionalKeys = false := rfl

/-- C3 (amended): for every node of the seven v2 kinds, the serialized
output conforms to the section 6 wire shape of its integer type tag
(9 Section, 10 TextDisplay, 11 Thumbnail, 12 MediaGallery, 13 File,
14 Separator, 17 Container): the type key holds the tag, every required
key is present, and no key outside the declared key set appears. -/
theorem c3_wire_schema_conformance :
    (∀ (cs : List Obj) (a : Option Obj) (i : Option Int),
        conformsTo (toDict (Obj.Section cs a i)) 9
          (specRequiredKeys 9) (specOptionalKeys 9) = true)
    ∧ (∀ (c : String) (i : Option Int),
        conformsTo (toDict (Obj.TextDisplay c i)) 10
          (specRequiredKeys 10) (specOptionalKeys 10) = true)
    ∧ (∀ (u : String) (d : Option String) (sp : Bool) (i : Option Int),
        conformsTo (toDict (Obj.Thumbnail u d sp i)) 11
          (specRequiredKeys 11) (specOptionalKeys 11) = true)
    ∧ (∀ (its : List Obj) (i : Option Int),
        conformsTo (toDict (Obj.MediaGallery its i)) 12
          (specRequiredKeys 12) (specOptionalKeys 12) = true)
    ∧ (∀ (f : String) (sp : Bool) (i : Option Int),
        conformsTo (toDict (Obj.File f sp i)) 13
          (specRequiredKeys 13) (specOptionalKeys 13) = true)
    ∧ (∀ (dv : Bool) (s : Int) (i : Option Int),
        conformsTo (toDict (Obj.Separator dv s i)) 14
          (specRequiredKeys 14) (specOptionalKeys 14) = true)
    ∧ (∀ (cs : List Obj) (col : Option Int) (sp : Bool) (i : Option Int),
        conformsTo (toDict (Obj.Container cs col sp i)) 17
          (specRequiredKeys 17) (specOptionalKeys 17) = true) := by
  refine ⟨fun cs a i => by cases a <;> cases i <;> rfl,
    fun c i => by cases i <;> rfl,
    fun u d sp i => by cases d <;> cases sp <;> cases i <;> rfl,
    fun its i => by cases i <;> rfl,
    fun f sp i => by cases sp <;> cases i <;> rfl,
    fun dv s i => ?_,
    fun cs col sp i => by cases col <;> cases sp <;> cases i <;> rfl⟩
  by_cases hs : s = SeparatorSpacing.SMALL <;> cases dv <;> cases i <;>
    simp [toDict, conformsTo, Json.lookup, Json.keys, lookupFields, optId, hs,
      specRequiredKeys, specOptionalKeys]

mutual

/-- The serializer translated into the exception monad returns `ok` of
the pure serialization on every node. -/
theorem toDictE_ok : ∀ o : Obj, toDictE o = Except.ok (toDict o)
  | .ActionRow _ => rfl
  | .Button _ => rfl
  | .Section cs a i => by
      simp [toDictE, toDict, toDictListE_ok cs, toDictAccessoryE_ok a]
  | .TextDisplay c i => rfl
  | .Container cs col sp i => by
      simp [toDictE, toDict, toDictListE_ok cs]
  | .Thumbnail u d sp i => rfl
  | .MediaGalleryItem u d sp => rfl
  | .MediaGallery its i => by
      simp [toDictE, toDict, toDictListE_ok its]
  | .File f sp i => rfl
  | .Separator dv s i => rfl

/-- Child-list serialization in the exception monad never fails. -/
theorem toDictListE_ok : ∀ os : List Obj, toDictListE os = Except.ok (toDictList os)
  | [] => rfl
  | o :: os => by
      simp [toDictListE, toDictList, toDictE_ok o, toDictListE_ok os]

/-- Accessory serialization in the exception monad never fails. -/
theorem toDictAccessoryE_ok :
    ∀ a : Option Obj, toDictAccessoryE a = Except.ok (toDictAccessory a)
  | none => rfl
  | some x => by
      simp [toDictAccessoryE, toDictAccessory, toDictE_ok x]

end

/-- C4: serialization never raises: the serializer translated into the
exception monad (the channel where a raise inside a to_dict body would
surface) returns `ok` of the pure serialization on every node, hence on
every successfully constructed tree; every error of the core is raised
by a constructor, never during serialization. -/
theorem c4_serialize_never_fails : ∀ o : Obj, toDictE o = Except.ok (toDict o) :=
  toDictE_ok

/-- C5 counterexample: constructing a Section with zero components raises
a plain ValueError whose fixed message names the kind and the bound but
does not name the actual count: the digit 0 (the actual count) does not
occur in the message. -/
theorem c5_arity_message_lacks_count :
    Section.init [] none none =
      Except.error (PyError.valueError "Section must contain at least one text component")
    ∧ ¬ ("0".toList <:+: "Section must contain at least one text component".toList) :=
  ⟨rfl, by decide⟩

/-- C5 (amended): count-bound violations raise a ValueError whose fixed
message names the kind and the bound (but not the actual count), and in
exactly the claimed cases: Section errors on zero components or on more
than three, MediaGallery on zero items or on more than ten, Container on
zero components; within the bounds no count error is raised. -/
theorem c5_arity_bounds :
    (∀ (cs : List Obj) (a : Option Obj) (i : Option Int),
        (Section.init cs a i =
            Except.error (PyError.valueError "Section must contain at least one text component")
          ↔ cs = [])
        ∧ (Section.init cs a i =
            Except.error (PyError.valueError "Section can only contain up to 3 text components")
          ↔ cs.length > 3))
    ∧ (∀ (its : List Obj) (i : Option Int),
        (MediaGallery.init its i =
            Except.error (PyError.valueError "MediaGallery must contain at least one item")
          ↔ its = [])
        ∧ (MediaGallery.init its i =
            Except.error (PyError.valueError "MediaGallery can only contain up to 10 items")
          ↔ its.length > 10))
    ∧ (∀ (cs : List Obj) (col : Option Int) (sp : Bool) (i : Option Int),
        Container.init cs col sp i =
            Except.error (PyError.valueError "Container must contain at least one component")
          ↔ cs = []) := by
  refine ⟨fun cs a i => ?_, fun its i => ?_, fun cs col sp i => ?_⟩
  · unfold Section.init
    split_ifs with h1 h2 h3 h4 <;>
      simp_all [List.isEmpty_iff]
  · unfold MediaGallery.init
    split_ifs with h1 h2 h3 <;>
      simp_all [List.isEmpty_iff]
  · unfold Container.init
    split_ifs with h1 <;>
      simp_all [List.isEmpty_iff]

/-- C6 counterexample: two whitelist violations that raise no type
error: a Section with four Buttons raises the arity ValueError (the
count check runs first), and a Container with a Thumbnail child (a kind
outside its whitelist) raises NameError on the unbound name ActionRow
(line 216) before the whitelist check of line 218 is reached. -/
theorem c6_whitelist_violations_without_type_error :
    Section.init [Obj.Button Json.null, Obj.Button Json.null,
        Obj.Button Json.null, Obj.Button Json.null] none none =
      Except.error (PyError.valueError "Section can only contain up to 3 text components")
    ∧ isTypeError (Section.init [Obj.Button Json.null, Obj.Button Json.null,
        Obj.Button Json.null, Obj.Button Json.null] none none) = false
    ∧ Container.init [Obj.Thumbnail "u" none false none] none false none =
        Except.error (PyError.nameError "ActionRow")
    ∧ isTypeError (Container.init [Obj.Thumbnail "u" none false none] none false none) = false :=
  ⟨rfl, rfl, rfl, rfl⟩

/-- C6 (amended): provided the count checks (which run first) pass,
Section raises a TypeError exactly when a component is not a TextDisplay
or the accessory is neither Button nor Thumbnail, and MediaGallery
exactly when an item is not a MediaGalleryItem; Container never raises a
type error: its whitelist check (line 218) is unreachable, every
non-empty components list raising NameError on the unbound name
ActionRow at line 216; inputs with only whitelisted elements never raise
a type error. -/
theorem c6_type_whitelist :
    (∀ (cs : List Obj) (a : Option Obj) (i : Option Int),
        isTypeError (Section.init cs a i) =
          (!cs.isEmpty && !(decide (cs.length > 3))
            && (!(cs.all isTextDisplay) || !(accessoryOk a))))
    ∧ (∀ (cs : List Obj) (col : Option Int) (sp : Bool) (i : Option Int),
        isTypeError (Container.init cs col sp i) = false)
    ∧ (∀ (c : Obj) (cs : List Obj) (col : Option Int) (sp : Bool) (i : Option Int),
        Container.init (c :: cs) col sp i = Except.error (PyError.nameError "ActionRow"))
    ∧ (∀ (its : List Obj) (i : Option Int),
        isTypeError (MediaGallery.init its i) =
          (!its.isEmpty && !(decide (its.length > 10))
            && !(its.all isMediaGalleryItem))) := by
  refine ⟨fun cs a i => ?_, fun cs col sp i => ?_,
    fun c cs col sp i => rfl, fun its i => ?_⟩
  · unfold Section.init
    split_ifs with h1 h2 h3 h4 <;> simp_all [isTypeError]
  · unfold Container.init
    split_ifs with h1 <;> simp [isTypeError]
  · unfold MediaGallery.init
    split_ifs with h1 h2 h3 <;> simp_all [isTypeError]

/-- C7 (code evaluated at the failing inputs): every accent color the
claim names (-1, 0x1000000, 0 and 0xFFFFFF alike, indeed any accent
color) raises NameError on the unbound name ActionRow at line 216
before the inclusive range check of lines 220-221 is reached, so the
accept/reject behavior the claim describes for Container never occurs;
the Separator half of the claim does hold: spacing is accepted exactly
on {SMALL, LARGE} = {1, 2}, so 3 raises the range ValueError while 1
and 2 are accepted. -/
theorem c7_accent_range_check_unreachable :
    (∀ col : Int,
        Container.init [Obj.TextDisplay "x" none] (some col) false none =
          Except.error (PyError.nameError "ActionRow"))
    ∧ Container.init [Obj.TextDisplay "x" none] (some (-1)) false none =
        Except.error (PyError.nameError "ActionRow")
    ∧ Container.init [Obj.TextDisplay "x" none] (some 0x1000000) false none =
        Except.error (PyError.nameError "ActionRow")
    ∧ Container.init [Obj.TextDisplay "x" none] (some 0) false none =
        Except.error (PyError.nameError "ActionRow")
    ∧ Container.init [Obj.TextDisplay "x" none] (some 0xFFFFFF) false none =
        Except.error (PyError.nameError "ActionRow")
    ∧ (∀ (dv : Bool) (s : Int) (i : Option Int),
        Separator.init dv s i =
          (if s = SeparatorSpacing.SMALL ∨ s = SeparatorSpacing.LARGE then
            Except.ok (Obj.Separator dv s i)
          else
            Except.error (PyError.valueError "spacing must be either SeparatorSpacing.SMALL or SeparatorSpacing.LARGE")))
    ∧ Separator.init true 3 none =
        Except.error (PyError.valueError "spacing must be either SeparatorSpacing.SMALL or SeparatorSpacing.LARGE")
    ∧ Separator.init true SeparatorSpacing.SMALL none =
        Except.ok (Obj.Separator true SeparatorSpacing.SMALL none)
    ∧ Separator.init true SeparatorSpacing.LARGE none =
        Except.ok (Obj.Separator true SeparatorSpacing.LARGE none) := by
  refine ⟨fun col => rfl, rfl, rfl, rfl, rfl, fun dv s i => ?_, rfl, rfl, rfl⟩
  unfold Separator.init
  by_cases h : s = SeparatorSpacing.SMALL ∨ s = SeparatorSpacing.LARGE <;>
    simp [h]
